import Mathlib

/-!
Shallow embedding of the checksum, framing, transport-retry, ping, write and
USB-enumeration logic of `LabJackPython.py`.

Python byte lists are modelled as `List Nat`; the code's `& 0xff` masks become
`% 256`, `>> 8` becomes `/ 256`, and raised exceptions become `Except` error
values.  Python's in-place list mutation (`buffer[0] = ...`) is modelled with
`List.set`; a function that mutates its argument and returns it is modelled as
returning the mutated list, and the post-state of the caller's argument after
the call is that returned list.
-/

namespace LabJack

/-- The exceptions the modelled code can raise: `LabJackException` (carrying
its message), `socket.error` (carrying a description), and `IndexError`. -/
inductive PyError where
  | labJackException (msg : String)
  | socketError (msg : String)
  | indexError
  deriving DecidableEq, Repr

instance {ε α : Type} [DecidableEq ε] [DecidableEq α] : DecidableEq (Except ε α) := fun
  | .error e1, .error e2 =>
    match decEq e1 e2 with
    | isTrue h => isTrue (h ▸ rfl)
    | isFalse h => isFalse fun c => h (by cases c; rfl)
  | .error _, .ok _ => isFalse fun c => Except.noConfusion c
  | .ok _, .error _ => isFalse fun c => Except.noConfusion c
  | .ok a1, .ok a2 =>
    match decEq a1 a2 with
    | isTrue h => isTrue (h ▸ rfl)
    | isFalse h => isFalse fun c => h (by cases c; rfl)

/-- One round of the 8-bit carry fold used by `setChecksum8`:
`(total & 0xff) + ((total >> 8) & 0xff)`. -/
def fold8 (total : Nat) : Nat := total % 256 + total / 256 % 256

/-- The summing loop of `setChecksum8`:
`for i in range(1, numBytes): total += buffer[i] & 0xff`. -/
def checksum8Total (buffer : List Nat) (numBytes : Nat) : Nat :=
  (((buffer.drop 1).take (numBytes - 1)).map (fun b => b % 256)).sum

/-- Embeds `setChecksum8(buffer, numBytes)` (LabJackPython.py:2060): sums bytes
`1..numBytes-1` masked to 8 bits, folds the carry twice, and stores the result
into byte 0.  The Python assigns `buffer[0]` twice in sequence (the second
assignment folds the value stored by the first), which collapses to a single
store of the twice-folded total. -/
def setChecksum8 (buffer : List Nat) (numBytes : Nat) : List Nat :=
  buffer.set 0 (fold8 (fold8 (checksum8Total buffer numBytes)))

/-- The summing loop of `setChecksum16`:
`for i in range(6, len(buffer)): total += buffer[i] & 0xff`. -/
def checksum16Total (buffer : List Nat) : Nat :=
  ((buffer.drop 6).map (fun b => b % 256)).sum

/-- Embeds `setChecksum16(buffer)` (LabJackPython.py:2048): sums bytes `6..end`
masked to 8 bits, stores the low byte `total & 0xff` at offset 4 and the high
byte `(total >> 8) & 0xff` at offset 5 (the total is computed before either
store, and the stored offsets are below 6, so using the original buffer for
both stores is exact). -/
def setChecksum16 (buffer : List Nat) : List Nat :=
  (buffer.set 4 (checksum16Total buffer % 256)).set 5 (checksum16Total buffer / 256 % 256)

/-- The frame-class nibble of a byte: `(command[1] & 0x78) >> 3`, i.e. bits
3-6 of byte 1 of a command frame. -/
def frameClassNibble (b : Nat) : Nat := (b &&& 0x78) >>> 3

/-- Embeds `setChecksum(command)` (LabJackPython.py:500): rejects commands shorter
than 8 bytes before touching any byte, then dispatches on the frame-class
nibble of byte 1 — value 15 marks an extended command (16-bit checksum over
bytes `6..`, then 8-bit checksum over bytes `1..5`), any other value a normal
command (8-bit checksum over bytes `1..len-1`).  The `try`/`except` wrapper in
the source can only re-raise: no other exception can occur once the length
guard has passed. -/
def setChecksum (command : List Nat) : Except PyError (List Nat) :=
  if command.length < 8 then
    .error (.labJackException "Command does not contain enough bytes.")
  else if frameClassNibble (command.getD 1 0) = 15 then
    .ok (setChecksum8 (setChecksum16 command) 6)
  else
    .ok (setChecksum8 command command.length)

/-- Embeds `verifyChecksum(buffer)` (LabJackPython.py:548): saves bytes 0, 4 and 5,
recomputes the checksums with `setChecksum` applied to the buffer itself (no
copy is made: `tempBuffer` aliases `buffer`), and compares the saved bytes
against the recomputed ones.  Reading `buffer[0]`, `buffer[4]`, `buffer[5]`
raises `IndexError` on buffers shorter than 6 bytes, and `setChecksum` raises
on buffers shorter than 8. -/
def verifyChecksum (buffer : List Nat) : Except PyError Bool :=
  if buffer.length < 6 then .error .indexError
  else
    match setChecksum buffer with
    | .error e => .error e
    | .ok temp =>
      .ok ((buffer.getD 0 0 == temp.getD 0 0) && (buffer.getD 4 0 == temp.getD 4 0)
            && (buffer.getD 5 0 == temp.getD 5 0))

/-- The post-state of the caller's list after `verifyChecksum(buffer)`
returns or raises: `setChecksum` mutates the buffer in place when it runs to
completion, and leaves it untouched when it raises (its length guard fires
before any store). -/
def verifyChecksumPost (buffer : List Nat) : List Nat :=
  match setChecksum buffer with
  | .ok temp => temp
  | .error _ => buffer

/-! ### The spec's reference checksum algorithm (claim C2)

The definitions below follow the claim's words, to be compared with the
embedding of the source: the 8-bit checksum is described as the byte sum
folded twice by `(sum & 0xFF) + (sum >> 8)` — written arithmetically, a byte
accumulator loop folded twice by `sum % 256 + sum / 256`. -/

/-- The claim's byte accumulator: running sum of the 8-bit values of a list
of bytes. -/
def byteSumAcc : List Nat → Nat → Nat
  | [], acc => acc
  | b :: rest, acc => byteSumAcc rest (acc + b % 256)

/-- The claim's carry fold `(sum & 0xFF) + (sum >> 8)` — note the unmasked
high part. -/
def specFold (sum : Nat) : Nat := sum % 256 + sum / 256

/-- The claim's 8-bit checksum: byte sum over `bytes[1..count)`, folded twice
by `specFold`, stored at byte 0. -/
def specChecksum8 (buffer : List Nat) (count : Nat) : List Nat :=
  buffer.set 0 (specFold (specFold (byteSumAcc ((buffer.drop 1).take (count - 1)) 0)))

/-- The claim's 16-bit checksum: sum of bytes `6..end`, low byte stored at
offset 4, high byte at offset 5. -/
def specChecksum16 (buffer : List Nat) : List Nat :=
  (buffer.set 4 (byteSumAcc (buffer.drop 6) 0 % 256)).set 5
    (byteSumAcc (buffer.drop 6) 0 / 256 % 256)

/-- The claim's reference algorithm for `setChecksum`: frame-class nibble at
bits 3-6 of byte 1; nibble 15 selects the 16-bit checksum followed by the
8-bit checksum over bytes 1..5; anything else the 8-bit checksum over bytes
`1..len-1`; frames shorter than 8 bytes fail. -/
def specApplyChecksum (frame : List Nat) : Except PyError (List Nat) :=
  if frame.length < 8 then
    .error (.labJackException "Command does not contain enough bytes.")
  else if frameClassNibble (frame.getD 1 0) = 15 then
    .ok (specChecksum8 (specChecksum16 frame) 6)
  else
    .ok (specChecksum8 frame frame.length)

/-- The claim's carry fold with the high part masked, as the code actually
computes it: `(sum & 0xFF) + ((sum >> 8) & 0xFF)`. -/
def maskedSpecFold (sum : Nat) : Nat := sum % 256 + sum / 256 % 256

/-- The claim's 8-bit checksum with the corrected (masked) fold. -/
def specChecksum8Masked (buffer : List Nat) (count : Nat) : List Nat :=
  buffer.set 0 (maskedSpecFold (maskedSpecFold
    (byteSumAcc ((buffer.drop 1).take (count - 1)) 0)))

/-- The claim's reference algorithm with the corrected fold. -/
def specApplyChecksumMasked (frame : List Nat) : Except PyError (List Nat) :=
  if frame.length < 8 then
    .error (.labJackException "Command does not contain enough bytes.")
  else if frameClassNibble (frame.getD 1 0) = 15 then
    .ok (specChecksum8Masked (specChecksum16 frame) 6)
  else
    .ok (specChecksum8Masked frame frame.length)

/-! ### Response validation (claim C5) -/

/-- Embeds `Device._checkCommandBytes(results, commandBytes)` (LabJackPython.py:352).
Python evaluates `results[0]` first (`IndexError` on an empty list) and
short-circuits the sentinel conjunction, so `results[1]` is only read when
`results[0] == 0xB8`; the echo slice `results[1:size+1]` never raises.  The
`verifyChecksum` call can raise (short responses) and mutates `results` at
indices 0, 4, 5 in place; the error-code test at index 6 is unaffected by
that mutation, so reading the original list there is exact. -/
def checkCommandBytes (results commandBytes : List Nat) : Except PyError Unit :=
  if results.length = 0 then .error .indexError
  else if results.getD 0 0 = 0xB8 ∧ results.length < 2 then .error .indexError
  else if results.getD 0 0 = 0xB8 ∧ results.getD 1 0 = 0xB8 then
    .error (.labJackException "Device detected a bad checksum.")
  else if (results.drop 1).take commandBytes.length ≠ commandBytes then
    .error (.labJackException "Got incorrect command bytes.")
  else
    match verifyChecksum results with
    | .error e => .error e
    | .ok b =>
      if b = false then .error (.labJackException "Checksum was incorrect.")
      else if results.getD 6 0 ≠ 0 then
        .error (.labJackException ("Command returned with error number "
          ++ toString (results.getD 6 0)))
      else .ok ()

/-! ### The register-protocol write-then-read retry (claim C6)

`Device._modbusWriteRead` (LabJackPython.py:344) writes the request, tries
one read, and on `LabJackException` — the only caught class — performs one
more write-then-read.  On the TCP modbus channel, `Device.read`
(LabJackPython.py:199) wraps `recv`: a `socket.error` triggers one reconnect
attempt, after which it raises `LabJackException("Read had a problem, but
it's ok now.")` when the reconnect succeeded (the recoverable-retry signal)
and re-raises the original `socket.error` when it failed. -/

/-- The environment of one modbus read attempt: what `recv` yields (data or a
socket error) and whether the reconnect attempted after a socket error would
succeed.  The write preceding the read may also raise (`writeErr`). -/
structure ModbusAttempt where
  writeErr : Option PyError
  recv : Except String (List Nat)
  reconnectOk : Bool

/-- Embeds `Device.read(n, modbus=True)` on a TCP handle, as a function of one
attempt's environment. -/
def modbusRead (a : ModbusAttempt) : Except PyError (List Nat) :=
  match a.recv with
  | .ok d => .ok d
  | .error msg =>
    if a.reconnectOk then .error (.labJackException "Read had a problem, but it's ok now.")
    else .error (.socketError msg)

/-- Python's `except LabJackException` filter. -/
def isLJException : PyError → Bool
  | .labJackException _ => true
  | _ => false

/-- Outcome of `_modbusWriteRead`: how many writes and reads were performed,
and the returned value or the propagated exception. -/
structure ModbusResult where
  writes : Nat
  reads : Nat
  result : Except PyError (List Nat)
  deriving DecidableEq, Repr

/-- Embeds `Device._modbusWriteRead(request, numBytes)` (LabJackPython.py:344):
write, try one read; only a `LabJackException` from the first read triggers
the single retry (one more write-then-read); any other exception, and any
exception of the retry itself, propagates. -/
def modbusWriteRead (a1 a2 : ModbusAttempt) : ModbusResult :=
  match a1.writeErr with
  | some e => ⟨1, 0, .error e⟩
  | none =>
    match modbusRead a1 with
    | .ok d => ⟨1, 1, .ok d⟩
    | .error e =>
      if isLJException e then
        match a2.writeErr with
        | some e2 => ⟨2, 1, .error e2⟩
        | none => ⟨2, 2, modbusRead a2⟩
      else ⟨1, 1, .error e⟩

/-! ### `Device.ping` (claim C8)

`Device.ping` (LabJackPython.py:375) is wrapped in `try ... except Exception:
return False`.  For `devType == LJ_dtUE9 (9)` it calls
`self.write([0x70, 0x70])`, reads 2 bytes, and — only on a `LabJackException`
from that read — writes and reads once more, then returns `True`.  For
`devType == LJ_dtU3 (3)` it checksums the probe
`setChecksum([0, 0xf8, 0x01, 0x2a, 0, 0, 0, 0])`, writes it, reads 40 bytes,
and returns `True`.  Any other device type falls through to `return False`.

Every `self.write(writeBuffer)` here uses the default flags
`modbus=False, checksum=True`, so `Device.write` (LabJackPython.py:151-155)
first checks the handle and then runs `setChecksum(writeBuffer)` on the probe
itself.  That stage is deterministic and is therefore computed by the
embedded `setChecksum`, not drawn from the environment: only the handle state
and the transport-level send/read outcomes are environmental. -/

def LJ_dtUE9 : Nat := 9

def LJ_dtU3 : Nat := 3

/-- The UE9 liveness probe `[0x70, 0x70]` (LabJackPython.py:378). -/
def ue9PingProbe : List Nat := [0x70, 0x70]

/-- The U3 liveness probe `[0, 0xf8, 0x01, 0x2a, 0, 0, 0, 0]`
(LabJackPython.py:388), before its explicit `setChecksum` call. -/
def u3PingProbe : List Nat := [0, 0xf8, 0x01, 0x2a, 0, 0, 0, 0]

/-- The environment of one `ping` call: the device type, whether the device
handle is present, and the outcome (`none` = success) of each transport-level
probe send and each read, in the order they could be attempted.  The checksum
stage of each write is not environmental — `pingWrite` computes it. -/
structure PingEnv where
  devType : Nat
  hasHandle : Bool
  send1 : Option PyError
  read1 : Option PyError
  send2 : Option PyError
  read2 : Option PyError

/-- One `self.write(writeBuffer)` call as `ping` performs it (default flags
`modbus=False, checksum=True`): the handle-`None` check, then `setChecksum`
applied to the probe itself — raising deterministically when the probe is
shorter than 8 bytes — and only then the transport send, whose outcome is the
environment's. -/
def pingWrite (hasHandle : Bool) (writeBuffer : List Nat) (sendErr : Option PyError) :
    Except PyError Unit :=
  if hasHandle = false then .error (.labJackException "The device handle is None.")
  else
    match setChecksum writeBuffer with
    | .error e => .error e
    | .ok _ =>
      match sendErr with
      | some e => .error e
      | none => .ok ()

/-- The body of `ping`'s `try` block: the result (or escaping exception)
paired with the number of reads attempted. -/
def pingRaw (env : PingEnv) : Except PyError Bool × Nat :=
  if env.devType = LJ_dtUE9 then
    match pingWrite env.hasHandle ue9PingProbe env.send1 with
    | .error e => (.error e, 0)
    | .ok _ =>
      match env.read1 with
      | none => (.ok true, 1)
      | some e =>
        if isLJException e then
          match pingWrite env.hasHandle ue9PingProbe env.send2 with
          | .error e2 => (.error e2, 1)
          | .ok _ =>
            match env.read2 with
            | none => (.ok true, 2)
            | some e2 => (.error e2, 2)
        else (.error e, 1)
  else if env.devType = LJ_dtU3 then
    match setChecksum u3PingProbe with
    | .error e => (.error e, 0)
    | .ok wb =>
      match pingWrite env.hasHandle wb env.send1 with
      | .error e => (.error e, 0)
      | .ok _ =>
        match env.read1 with
        | none => (.ok true, 1)
        | some e => (.error e, 1)
  else (.ok false, 0)

/-- Embeds `Device.ping()`: the outer `except Exception` turns every escaping
exception into `False`. -/
def ping (env : PingEnv) : Bool × Nat :=
  match pingRaw env with
  | (.ok b, n) => (b, n)
  | (.error _, n) => (false, n)

/-! ### `Device.write` (claim C9) -/

/-- Where `Device.write` hands the bytes to the transport: the TCP modbus
socket, the TCP data socket, or the USB bulk-write endpoint. -/
inductive Channel where
  | tcpModbus
  | tcpData
  | usbEndpoint1
  deriving DecidableEq, Repr

/-- Embeds `Device.write(writeBuffer, modbus=False, checksum=True)`
(LabJackPython.py:145): fails when the handle is `None`; applies
`setChecksum` whenever `checksum` is true (propagating its exception),
regardless of `modbus`; on a TCP handle sends the bytes unchanged on the
modbus or data socket; on the USB driver path prepends the 2-byte pad
`[0, 0]` when (and only when) `modbus` is true.  The value returned is the
byte sequence handed to the transport and the channel used; transport-level
failures (short bulk write) are outside this function's modelling. -/
def deviceWrite (hasHandle isTCP : Bool) (writeBuffer : List Nat)
    (modbus checksum : Bool) : Except PyError (List Nat × Channel) :=
  if hasHandle = false then .error (.labJackException "The device handle is None.")
  else
    match (if checksum then setChecksum writeBuffer else .ok writeBuffer) with
    | .error e => .error e
    | .ok buf =>
      if isTCP then
        if modbus then .ok (buf, .tcpModbus) else .ok (buf, .tcpData)
      else if modbus then .ok ([0, 0] ++ buf, .usbEndpoint1)
      else .ok (buf, .usbEndpoint1)

/-! ### USB enumeration (claim C7)

`__listAllUE9Unix` (LabJackPython.py:1875) and `__listAllU3Unix`
(LabJackPython.py:1974) both loop over `LJUSB_GetDevCount` device indices,
open each, send an identification frame and parse the reply.  The UE9 loop
wraps the whole body in `try ... except: device.close(); continue`, so a
failing candidate is closed and skipped.  The U3 loop skips (without a
close) candidates whose `LJUSB_OpenDevice` returned handle 0, but on a
write/read failure it closes the device and then raises
`LabJackException("Error in listAllU3")`, aborting the whole enumeration. -/

/-- One enumeration candidate: the handle `LJUSB_OpenDevice` returns (0 means
the open failed), whether the identification write/read succeeds, and the
serial number its reply parses to. -/
structure USBCandidate where
  handle : Nat
  ioOk : Bool
  serial : Nat

/-- Embeds `__listAllUE9Unix`'s USB loop: the serial numbers successfully identified
(in loop order; the Python stores them in a dict keyed by serial) paired with
the number of `close()` calls issued. -/
def listAllUE9Unix : List USBCandidate → List Nat × Nat
  | [] => ([], 0)
  | c :: rest =>
    let r := listAllUE9Unix rest
    if c.ioOk then (c.serial :: r.1, r.2 + 1) else (r.1, r.2 + 1)

/-- Embeds `__listAllU3Unix`: like the UE9 loop but candidates with handle 0 are
skipped without a close, and an identification-I/O failure closes the
candidate and aborts the whole enumeration with
`LabJackException("Error in listAllU3")`. -/
def listAllU3Unix : List USBCandidate → Except PyError (List Nat) × Nat
  | [] => (.ok [], 0)
  | c :: rest =>
    if c.handle = 0 then listAllU3Unix rest
    else if c.ioOk then
      match listAllU3Unix rest with
      | (.ok s, n) => (.ok (c.serial :: s), n + 1)
      | (.error e, n) => (.error e, n + 1)
    else (.error (.labJackException "Error in listAllU3"), 1)

/-! ### Theorems -/

/-! ### Basic list lemmas used by the checksum proofs -/

theorem drop_one_set_zero (l : List Nat) (v : Nat) : (l.set 0 v).drop 1 = l.drop 1 := by
  cases l <;> rfl

theorem drop_set_of_lt (l : List Nat) (i v n : Nat) (h : i < n) :
    (l.set i v).drop n = l.drop n := by
  induction l generalizing i n with
  | nil => rfl
  | cons a t ih =>
    cases i with
    | zero =>
      cases n with
      | zero => omega
      | succ m => simp [List.set, List.drop]
    | succ j =>
      cases n with
      | zero => omega
      | succ m =>
        simp only [List.set, List.drop]
        exact ih j m (by omega)

theorem getD_set_ne (l : List Nat) (i j v d : Nat) (h : i ≠ j) :
    (l.set i v).getD j d = l.getD j d := by
  induction l generalizing i j with
  | nil => rfl
  | cons a t ih =>
    cases i with
    | zero =>
      cases j with
      | zero => omega
      | succ m => simp [List.set, List.getD]
    | succ k =>
      cases j with
      | zero => simp [List.set, List.getD]
      | succ m =>
        simp only [List.set, List.getD_cons_succ]
        exact ih k m (by omega)

theorem getD_set_self (l : List Nat) (i v d : Nat) (h : i < l.length) :
    (l.set i v).getD i d = v := by
  induction l generalizing i with
  | nil => simp at h
  | cons a t ih =>
    cases i with
    | zero => rfl
    | succ k =>
      simp only [List.set, List.getD_cons_succ]
      exact ih k (by simpa using h)

theorem checksum8Total_full (l : List Nat) :
    checksum8Total l l.length = ((l.drop 1).map (fun b => b % 256)).sum := by
  unfold checksum8Total
  rw [List.take_of_length_le (by simp)]

theorem checksum8Total_set_zero (l : List Nat) (v n : Nat) :
    checksum8Total (l.set 0 v) n = checksum8Total l n := by
  unfold checksum8Total
  rw [drop_one_set_zero]

theorem checksum16Total_set (l : List Nat) (i v : Nat) (h : i < 6) :
    checksum16Total (l.set i v) = checksum16Total l := by
  unfold checksum16Total
  rw [drop_set_of_lt l i v 6 h]

/-! ### Shape of a successful `setChecksum` -/

theorem setChecksum_normal (f : List Nat) (h8 : 8 ≤ f.length)
    (hn : frameClassNibble (f.getD 1 0) ≠ 15) :
    setChecksum f = .ok (setChecksum8 f f.length) := by
  unfold setChecksum
  rw [if_neg (by omega), if_neg hn]

theorem setChecksum_extended (f : List Nat) (h8 : 8 ≤ f.length)
    (he : frameClassNibble (f.getD 1 0) = 15) :
    setChecksum f = .ok (setChecksum8 (setChecksum16 f) 6) := by
  unfold setChecksum
  rw [if_neg (by omega), if_pos he]

theorem setChecksum_isOk (f : List Nat) (h8 : 8 ≤ f.length) :
    ∃ g, setChecksum f = .ok g := by
  by_cases he : frameClassNibble (f.getD 1 0) = 15
  · exact ⟨_, setChecksum_extended f h8 he⟩
  · exact ⟨_, setChecksum_normal f h8 he⟩

theorem length_setChecksum8 (buffer : List Nat) (n : Nat) :
    (setChecksum8 buffer n).length = buffer.length := by
  unfold setChecksum8
  simp

theorem length_setChecksum16 (buffer : List Nat) :
    (setChecksum16 buffer).length = buffer.length := by
  unfold setChecksum16
  simp

theorem length_setChecksum (f g : List Nat) (hg : setChecksum f = .ok g) :
    g.length = f.length := by
  unfold setChecksum at hg
  split at hg
  · exact absurd hg (by simp)
  · split at hg
    · cases hg
      rw [length_setChecksum8, length_setChecksum16]
    · cases hg
      rw [length_setChecksum8]

theorem getD_one_setChecksum8 (buffer : List Nat) (n : Nat) :
    (setChecksum8 buffer n).getD 1 0 = buffer.getD 1 0 := by
  unfold setChecksum8
  exact getD_set_ne _ 0 1 _ 0 (by omega)

theorem getD_one_setChecksum16 (buffer : List Nat) :
    (setChecksum16 buffer).getD 1 0 = buffer.getD 1 0 := by
  unfold setChecksum16
  rw [getD_set_ne _ 5 1 _ 0 (by omega), getD_set_ne _ 4 1 _ 0 (by omega)]

/-- Re-applying `setChecksum` to an already-checksummed frame reproduces it
unchanged: the second application recomputes the same totals (the checksum
stores at offsets 0, 4, 5 never feed the sums that produce them, except that
the extended-frame 8-bit sum reads offsets 4 and 5 after they already hold
their final values). -/
theorem setChecksum_idem (f g : List Nat) (h8 : 8 ≤ f.length)
    (hg : setChecksum f = .ok g) : setChecksum g = .ok g := by
  have hlen : g.length = f.length := length_setChecksum f g hg
  by_cases he : frameClassNibble (f.getD 1 0) = 15
  · rw [setChecksum_extended f h8 he] at hg
    have hgEq : g = setChecksum8 (setChecksum16 f) 6 := by
      cases hg; rfl
    have hg1 : g.getD 1 0 = f.getD 1 0 := by
      rw [hgEq, getD_one_setChecksum8, getD_one_setChecksum16]
    rw [setChecksum_extended g (by omega) (by rw [hg1]; exact he)]
    unfold setChecksum8 setChecksum16 at hgEq ⊢
    have h16 : checksum16Total g = checksum16Total f := by
      rw [hgEq, checksum16Total_set _ 0 _ (by omega), checksum16Total_set _ 5 _ (by omega),
        checksum16Total_set _ 4 _ (by omega)]
    rw [h16]
    have hset4 : g.set 4 (checksum16Total f % 256) = g := by
      rw [hgEq, List.set_comm _ _ _ (show 0 ≠ 4 by omega),
        List.set_comm _ _ _ (show 5 ≠ 4 by omega), List.set_set]
    have hset5 : g.set 5 (checksum16Total f / 256 % 256) = g := by
      rw [hgEq, List.set_comm _ _ _ (show 0 ≠ 5 by omega), List.set_set]
    rw [hset4, hset5]
    have hT : checksum8Total g 6 =
        checksum8Total ((f.set 4 (checksum16Total f % 256)).set 5
          (checksum16Total f / 256 % 256)) 6 := by
      rw [hgEq, checksum8Total_set_zero]
    rw [hT, hgEq, List.set_set]
  · rw [setChecksum_normal f h8 he] at hg
    have hgEq : g = setChecksum8 f f.length := by
      cases hg; rfl
    have hg1 : g.getD 1 0 = f.getD 1 0 := by
      rw [hgEq, getD_one_setChecksum8]
    rw [setChecksum_normal g (by omega) (by rw [hg1]; exact he)]
    unfold setChecksum8 at hgEq ⊢
    rw [hlen]
    have hT : checksum8Total g f.length = checksum8Total f f.length := by
      rw [hgEq, checksum8Total_set_zero]
    rw [hT, hgEq, List.set_set]

/-! ### Claims about the checksum engine -/

/-- C1: for every byte sequence `f` of length at least 8, applying the
checksum with `setChecksum` succeeds, and `verifyChecksum` on the result
returns `True`. -/
theorem verifyChecksum_after_setChecksum (f : List Nat) (h8 : 8 ≤ f.length) :
    ∃ g, setChecksum f = .ok g ∧ verifyChecksum g = .ok true := by
  obtain ⟨g, hg⟩ := setChecksum_isOk f h8
  refine ⟨g, hg, ?_⟩
  have hlen : g.length = f.length := length_setChecksum f g hg
  unfold verifyChecksum
  rw [if_neg (by omega), setChecksum_idem f g h8 hg]
  simp

/-- Witness for C1: the documented sample command of `setChecksum`
(an extended frame) round-trips through `verifyChecksum`. -/
theorem verifyChecksum_after_setChecksum_witness :
    8 ≤ ([0, 0xf8, 0x03, 0x0b, 0, 0, 0, 0, 0, 0, 0, 0] : List Nat).length ∧
    ∃ g, setChecksum [0, 0xf8, 0x03, 0x0b, 0, 0, 0, 0, 0, 0, 0, 0] = .ok g ∧
      verifyChecksum g = .ok true :=
  ⟨by decide, verifyChecksum_after_setChecksum _ (by decide)⟩

/-- C3: for every byte sequence shorter than 8 bytes, `setChecksum` raises
`LabJackException("Command does not contain enough bytes.")`.  The length
guard is the first statement of the function, before any checksum work, so
(as the `Except.error` result of this pure embedding records) no byte of the
input is ever modified. -/
theorem setChecksum_short_frame (f : List Nat) (h : f.length < 8) :
    setChecksum f = .error (.labJackException "Command does not contain enough bytes.") := by
  unfold setChecksum
  rw [if_pos h]

/-- Witness for C3 at the empty frame. -/
theorem setChecksum_short_frame_witness :
    ([] : List Nat).length < 8 ∧
    setChecksum [] = .error (.labJackException "Command does not contain enough bytes.") :=
  ⟨by decide, setChecksum_short_frame [] (by decide)⟩

/-- Bytes other than 0, 4 and 5 are never written by `setChecksum`. -/
theorem setChecksum_getD_untouched (f g : List Nat) (h8 : 8 ≤ f.length)
    (hg : setChecksum f = .ok g) :
    ∀ i, i ≠ 0 → i ≠ 4 → i ≠ 5 → g.getD i 0 = f.getD i 0 := by
  intro i hi0 hi4 hi5
  by_cases he : frameClassNibble (f.getD 1 0) = 15
  · rw [setChecksum_extended f h8 he] at hg
    cases hg
    unfold setChecksum8 setChecksum16
    rw [getD_set_ne _ 0 i _ 0 (by omega), getD_set_ne _ 5 i _ 0 (by omega),
      getD_set_ne _ 4 i _ 0 (by omega)]
  · rw [setChecksum_normal f h8 he] at hg
    cases hg
    unfold setChecksum8
    rw [getD_set_ne _ 0 i _ 0 (by omega)]

/-- On a normal frame (class nibble of byte 1 not 15) only byte 0 is written. -/
theorem setChecksum_getD_untouched_normal (f g : List Nat) (h8 : 8 ≤ f.length)
    (hn : frameClassNibble (f.getD 1 0) ≠ 15) (hg : setChecksum f = .ok g) :
    ∀ i, i ≠ 0 → g.getD i 0 = f.getD i 0 := by
  intro i hi0
  rw [setChecksum_normal f h8 hn] at hg
  cases hg
  unfold setChecksum8
  rw [getD_set_ne _ 0 i _ 0 (by omega)]

/-- C10: for every frame of length at least 8, `setChecksum` succeeds and the
returned list (which in Python is the argument itself, mutated in place and
returned) has the input's length, agrees with the input everywhere outside
indices 0, 4 and 5, and — when the frame is normal (class nibble of byte 1
not 15) — agrees with the input everywhere outside index 0. -/
theorem setChecksum_frame_effect (f : List Nat) (h8 : 8 ≤ f.length) :
    ∃ g, setChecksum f = .ok g ∧ g.length = f.length ∧
      (∀ i, i ≠ 0 → i ≠ 4 → i ≠ 5 → g.getD i 0 = f.getD i 0) ∧
      (frameClassNibble (f.getD 1 0) ≠ 15 → ∀ i, i ≠ 0 → g.getD i 0 = f.getD i 0) := by
  obtain ⟨g, hg⟩ := setChecksum_isOk f h8
  exact ⟨g, hg, length_setChecksum f g hg, setChecksum_getD_untouched f g h8 hg,
    fun hn => setChecksum_getD_untouched_normal f g h8 hn hg⟩

/-- Witness for C10 on a concrete normal frame. -/
theorem setChecksum_frame_effect_witness :
    8 ≤ ([9, 1, 2, 3, 4, 5, 6, 7] : List Nat).length ∧
    ∃ g, setChecksum [9, 1, 2, 3, 4, 5, 6, 7] = .ok g ∧
      g.length = ([9, 1, 2, 3, 4, 5, 6, 7] : List Nat).length ∧
      (∀ i, i ≠ 0 → i ≠ 4 → i ≠ 5 →
        g.getD i 0 = ([9, 1, 2, 3, 4, 5, 6, 7] : List Nat).getD i 0) ∧
      (frameClassNibble (([9, 1, 2, 3, 4, 5, 6, 7] : List Nat).getD 1 0) ≠ 15 →
        ∀ i, i ≠ 0 → g.getD i 0 = ([9, 1, 2, 3, 4, 5, 6, 7] : List Nat).getD i 0) :=
  ⟨by decide, setChecksum_frame_effect _ (by decide)⟩

/-- Counterexample for C4: `verifyChecksum` is not total and does not work on
a copy.  On a 7-byte buffer it raises (propagating `setChecksum`'s length
error) instead of returning a boolean, and on an 8-byte frame whose stored
checksum byte is wrong, the caller's buffer is mutated in place (byte 0 is
overwritten with the recomputed checksum). -/
theorem verifyChecksum_throws_and_mutates :
    verifyChecksum [0, 0, 0, 0, 0, 0, 0]
      = .error (.labJackException "Command does not contain enough bytes.") ∧
    verifyChecksumPost [9, 0, 0, 0, 0, 0, 0, 0] ≠ [9, 0, 0, 0, 0, 0, 0, 0] := by
  decide

/-- C4 as amended: for frames of length at least 8, `verifyChecksum`
recomputes the checksums via `setChecksum` applied to the frame itself (not a
copy: the frame's post-state is the recomputed frame, which can differ from
the input at indices 0, 4 and 5 and nowhere else) and returns the boolean
comparison of bytes 0, 4 and 5 of the original against the recomputed values;
for shorter inputs it raises instead of returning. -/
theorem verifyChecksum_spec (f : List Nat) (h8 : 8 ≤ f.length) :
    ∃ g, setChecksum f = .ok g ∧
      verifyChecksum f = .ok ((f.getD 0 0 == g.getD 0 0) && (f.getD 4 0 == g.getD 4 0)
        && (f.getD 5 0 == g.getD 5 0)) ∧
      verifyChecksumPost f = g ∧ g.length = f.length ∧
      (∀ i, i ≠ 0 → i ≠ 4 → i ≠ 5 → g.getD i 0 = f.getD i 0) := by
  obtain ⟨g, hg⟩ := setChecksum_isOk f h8
  refine ⟨g, hg, ?_, ?_, length_setChecksum f g hg, setChecksum_getD_untouched f g h8 hg⟩
  · unfold verifyChecksum
    rw [if_neg (by omega), hg]
  · unfold verifyChecksumPost
    rw [hg]

/-- Witness for C4 as amended, at the documented sample command with a wrong
stored checksum byte: the comparison comes back `false`. -/
theorem verifyChecksum_spec_witness :
    8 ≤ ([1, 0xf8, 0x03, 0x0b, 0, 0, 0, 0, 0, 0, 0, 0] : List Nat).length ∧
    ∃ g, setChecksum [1, 0xf8, 0x03, 0x0b, 0, 0, 0, 0, 0, 0, 0, 0] = .ok g ∧
      verifyChecksum [1, 0xf8, 0x03, 0x0b, 0, 0, 0, 0, 0, 0, 0, 0]
        = .ok ((([1, 0xf8, 0x03, 0x0b, 0, 0, 0, 0, 0, 0, 0, 0] : List Nat).getD 0 0 == g.getD 0 0)
            && (([1, 0xf8, 0x03, 0x0b, 0, 0, 0, 0, 0, 0, 0, 0] : List Nat).getD 4 0 == g.getD 4 0)
            && (([1, 0xf8, 0x03, 0x0b, 0, 0, 0, 0, 0, 0, 0, 0] : List Nat).getD 5 0 == g.getD 5 0)) ∧
      verifyChecksumPost [1, 0xf8, 0x03, 0x0b, 0, 0, 0, 0, 0, 0, 0, 0] = g ∧
      g.length = ([1, 0xf8, 0x03, 0x0b, 0, 0, 0, 0, 0, 0, 0, 0] : List Nat).length ∧
      (∀ i, i ≠ 0 → i ≠ 4 → i ≠ 5 →
        g.getD i 0 = ([1, 0xf8, 0x03, 0x0b, 0, 0, 0, 0, 0, 0, 0, 0] : List Nat).getD i 0) :=
  ⟨by decide, verifyChecksum_spec _ (by decide)⟩

set_option maxRecDepth 4000 in
/-- Counterexample for C2: on the 259-byte normal frame
`0 :: 135 :: 255 × 257` the byte sum is `65670 ≥ 2^16`, and there the code's
fold `(sum & 0xFF) + ((sum >> 8) & 0xFF)` (which masks the high part) and
the claim's fold `(sum & 0xFF) + (sum >> 8)` disagree: the code stores 134
into byte 0, the claim's reference algorithm 135. -/
theorem setChecksum_ne_specApplyChecksum :
    setChecksum (0 :: 135 :: List.replicate 257 255)
      ≠ specApplyChecksum (0 :: 135 :: List.replicate 257 255) ∧
    (setChecksum (0 :: 135 :: List.replicate 257 255)).map (fun l => l.getD 0 0)
      = .ok 134 ∧
    (specApplyChecksum (0 :: 135 :: List.replicate 257 255)).map (fun l => l.getD 0 0)
      = .ok 135 := by
  decide

theorem byteSumAcc_eq (l : List Nat) :
    ∀ acc, byteSumAcc l acc = acc + (l.map (fun b => b % 256)).sum := by
  induction l with
  | nil => intro acc; simp [byteSumAcc]
  | cons b rest ih =>
    intro acc
    rw [byteSumAcc, ih]
    simp
    omega

/-- C2 as amended: `setChecksum` implements the claim's reference algorithm
once the carry fold masks its high part, i.e. reads
`(sum & 0xFF) + ((sum >> 8) & 0xFF)`; no other part of the claim changes. -/
theorem setChecksum_eq_specApplyChecksumMasked (frame : List Nat) :
    setChecksum frame = specApplyChecksumMasked frame := by
  unfold setChecksum specApplyChecksumMasked specChecksum8Masked setChecksum8
    specChecksum16 setChecksum16 maskedSpecFold fold8 checksum8Total checksum16Total
  simp only [byteSumAcc_eq, Nat.zero_add]

/-- C5: on any response of at least 8 bytes, `_checkCommandBytes` performs
its checks in the fixed order sentinel-pair, echoed command bytes, checksum,
error code, and raises a distinct `LabJackException` for each, succeeding
only when all four pass. -/
theorem checkCommandBytes_order (results commandBytes : List Nat)
    (h8 : 8 ≤ results.length) :
    (results.getD 0 0 = 0xB8 ∧ results.getD 1 0 = 0xB8 →
      checkCommandBytes results commandBytes
        = .error (.labJackException "Device detected a bad checksum.")) ∧
    (¬(results.getD 0 0 = 0xB8 ∧ results.getD 1 0 = 0xB8) →
      (results.drop 1).take commandBytes.length ≠ commandBytes →
      checkCommandBytes results commandBytes
        = .error (.labJackException "Got incorrect command bytes.")) ∧
    (¬(results.getD 0 0 = 0xB8 ∧ results.getD 1 0 = 0xB8) →
      (results.drop 1).take commandBytes.length = commandBytes →
      verifyChecksum results = .ok false →
      checkCommandBytes results commandBytes
        = .error (.labJackException "Checksum was incorrect.")) ∧
    (¬(results.getD 0 0 = 0xB8 ∧ results.getD 1 0 = 0xB8) →
      (results.drop 1).take commandBytes.length = commandBytes →
      verifyChecksum results = .ok true → results.getD 6 0 ≠ 0 →
      checkCommandBytes results commandBytes
        = .error (.labJackException ("Command returned with error number "
            ++ toString (results.getD 6 0)))) ∧
    (¬(results.getD 0 0 = 0xB8 ∧ results.getD 1 0 = 0xB8) →
      (results.drop 1).take commandBytes.length = commandBytes →
      verifyChecksum results = .ok true → results.getD 6 0 = 0 →
      checkCommandBytes results commandBytes = .ok ()) := by
  unfold checkCommandBytes
  rw [if_neg (by omega), if_neg (by rintro ⟨-, h⟩; omega)]
  refine ⟨fun hs => ?_, fun hs he => ?_, fun hs he hv => ?_,
    fun hs he hv h6 => ?_, fun hs he hv h6 => ?_⟩
  · rw [if_pos hs]
  · rw [if_neg hs, if_pos he]
  · rw [if_neg hs, if_neg (fun hne => hne he), hv]
    simp
  · rw [if_neg hs, if_neg (fun hne => hne he), hv]
    simp only [List.getD_eq_getElem?_getD] at h6
    simp [h6]
  · rw [if_neg hs, if_neg (fun hne => hne he), hv]
    simp only [List.getD_eq_getElem?_getD] at h6
    simp [h6]

/-- Witness for C5: a device-reported-bad-checksum response fails with the
sentinel error. -/
theorem checkCommandBytes_order_witness :
    checkCommandBytes [0xB8, 0xB8, 0, 0, 0, 0, 0, 0] []
      = .error (.labJackException "Device detected a bad checksum.") :=
  (checkCommandBytes_order [0xB8, 0xB8, 0, 0, 0, 0, 0, 0] [] (by decide)).1 (by decide)

/-- Counterexample for C6: when the first read fails with a `socket.error`
whose reconnect also fails (a transport failure that is not a
`LabJackException`), `_modbusWriteRead` performs no retry at all — one write,
one read, the original socket error surfaces — even though a second
write-then-read cycle would have succeeded. -/
theorem modbusWriteRead_no_retry_on_socket_error :
    modbusWriteRead ⟨none, .error "ECONNRESET", false⟩ ⟨none, .ok [1], true⟩
      = ⟨1, 1, .error (.socketError "ECONNRESET")⟩ ∧
    modbusRead ⟨none, .error "ECONNRESET", false⟩ = .error (.socketError "ECONNRESET") ∧
    modbusRead ⟨none, .ok [1], true⟩ = .ok [1] := by
  decide

/-- C6 as amended: `_modbusWriteRead` performs at most one retry, and the
retry happens exactly when the first read fails with a `LabJackException`
(the recoverable-retry signal, or any LabJack-level failure); the second
cycle's outcome — success or its own error — is what surfaces then.  A first
read failing with anything else (e.g. the original socket error re-raised
after a failed reconnect) surfaces immediately, with no retry. -/
theorem modbusWriteRead_spec (a1 a2 : ModbusAttempt) :
    (modbusWriteRead a1 a2).writes ≤ 2 ∧ (modbusWriteRead a1 a2).reads ≤ 2 ∧
    (∀ e, a1.writeErr = some e → modbusWriteRead a1 a2 = ⟨1, 0, .error e⟩) ∧
    (∀ d, a1.writeErr = none → modbusRead a1 = .ok d →
      modbusWriteRead a1 a2 = ⟨1, 1, .ok d⟩) ∧
    (∀ e, a1.writeErr = none → modbusRead a1 = .error e → isLJException e = true →
      a2.writeErr = none → modbusWriteRead a1 a2 = ⟨2, 2, modbusRead a2⟩) ∧
    (∀ e, a1.writeErr = none → modbusRead a1 = .error e → isLJException e = false →
      modbusWriteRead a1 a2 = ⟨1, 1, .error e⟩) := by
  obtain ⟨w1, r1, c1⟩ := a1
  obtain ⟨w2, r2, c2⟩ := a2
  cases w1 <;> cases r1 <;> cases w2 <;> cases c1 <;>
    simp_all [modbusWriteRead, modbusRead, isLJException]

/-- Witness for C6 as amended: a recoverable first failure (socket error with
successful reconnect raises the LabJack retry signal) leads to exactly one
more write-then-read cycle, which succeeds. -/
theorem modbusWriteRead_spec_witness :
    modbusWriteRead ⟨none, .error "timed out", true⟩ ⟨none, .ok [7], true⟩
      = ⟨2, 2, .ok [7]⟩ := by
  have h := (modbusWriteRead_spec ⟨none, .error "timed out", true⟩
    ⟨none, .ok [7], true⟩).2.2.2.2.1
    (.labJackException "Read had a problem, but it's ok now.") rfl rfl rfl rfl
  rw [h]
  rfl

/-- A `ping`-style write of the 2-byte UE9 probe always raises, whatever the
handle state and whatever the transport would do: either the handle is
missing, or `setChecksum([0x70, 0x70])` hits its length guard
(LabJackPython.py:524) before any transport interaction. -/
theorem pingWrite_ue9Probe (hasHandle : Bool) (s : Option PyError) :
    ∃ e, pingWrite hasHandle ue9PingProbe s = .error e := by
  cases hasHandle
  · exact ⟨.labJackException "The device handle is None.", rfl⟩
  · exact ⟨.labJackException "Command does not contain enough bytes.", rfl⟩

/-- C8 (code bug): on a UE9 the liveness probe `[0x70, 0x70]` is written via
`Device.write` with the default `checksum=True`, so `setChecksum` runs on the
2-byte probe and always raises `LabJackException("Command does not contain
enough bytes.")` before any transport interaction.  Whatever the environment
— handle present or not, transport healthy or failing — UE9 `ping` attempts
zero reads, never retries, and returns `False`: the documented behavior
("Returns true if communication worked") and the read-retry block are
unreachable for the UE9 family. -/
theorem ue9_ping_always_false (env : PingEnv) (h : env.devType = LJ_dtUE9) :
    ping env = (false, 0) := by
  obtain ⟨e, he⟩ := pingWrite_ue9Probe env.hasHandle env.send1
  unfold ping pingRaw
  rw [if_pos h, he]

/-- Witness for C8: even a UE9 with an open handle and a fully functional
transport (every send and read would succeed) gets `False` from `ping`, with
no read ever attempted. -/
theorem ue9_ping_always_false_witness :
    ping ⟨9, true, none, none, none, none⟩ = (false, 0) :=
  ue9_ping_always_false ⟨9, true, none, none, none, none⟩ rfl

/-- Counterexample for C9: a TCP write with the modbus flag set and the
(default) checksum flag set has the native checksum applied anyway — byte 0
changes from 9 to the computed checksum 0 — and is sent without any 2-byte
pad (same length in, same length out).  The modbus flag alone neither
suppresses the checksum nor guarantees the pad. -/
theorem deviceWrite_modbus_counterexample :
    deviceWrite true true (9 :: 0 :: List.replicate 10 0) true true
      = .ok (0 :: 0 :: List.replicate 10 0, .tcpModbus) ∧
    (0 :: 0 :: List.replicate 10 0 : List Nat).getD 0 0
      ≠ (9 :: 0 :: List.replicate 10 0 : List Nat).getD 0 0 ∧
    (0 :: 0 :: List.replicate 10 0 : List Nat).length
      = (9 :: 0 :: List.replicate 10 0 : List Nat).length := by
  decide

/-- C9 as amended: `Device.write` applies the native checksum exactly when
its `checksum` flag is true — the register-protocol (modbus) flag does not
suppress it (the register-protocol call sites suppress it themselves by
passing `checksum=False`) — and the fixed 2-byte pad `[0, 0]` is prefixed
only for register-protocol writes on the USB driver path; TCP
register-protocol writes go to the modbus socket unpadded. -/
theorem deviceWrite_spec (isTCP : Bool) (writeBuffer : List Nat)
    (modbus checksum : Bool) (payload : List Nat)
    (hp : (if checksum then setChecksum writeBuffer else .ok writeBuffer) = .ok payload) :
    deviceWrite true isTCP writeBuffer modbus checksum =
      .ok ((if isTCP = false ∧ modbus = true then [0, 0] ++ payload else payload),
        (if isTCP then (if modbus then Channel.tcpModbus else Channel.tcpData)
          else Channel.usbEndpoint1)) ∧
    deviceWrite false isTCP writeBuffer modbus checksum
      = .error (.labJackException "The device handle is None.") ∧
    (checksum = false → payload = writeBuffer) := by
  refine ⟨?_, by unfold deviceWrite; rw [if_pos rfl], ?_⟩
  · unfold deviceWrite
    rw [if_neg (by simp), hp]
    cases isTCP <;> cases modbus <;> simp
  · intro hc
    subst hc
    simp only [if_neg Bool.false_ne_true] at hp
    cases hp
    rfl

/-- Witness for C9 as amended: a USB register-protocol write with the
checksum suppressed is sent as the 2-byte pad followed by the unchanged
payload. -/
theorem deviceWrite_spec_witness :
    deviceWrite true false [1, 2, 3] true false = .ok ([0, 0, 1, 2, 3], .usbEndpoint1) := by
  have h := (deviceWrite_spec false [1, 2, 3] true false [1, 2, 3] rfl).1
  rw [h]
  rfl

/-- Counterexample for C7: with three openable candidates of which the second
fails its identification I/O, the U3 enumeration aborts with an error
(closing 2 sessions, the successful first and the failing second) instead of
returning the two successfully identified devices — which the UE9 loop, on
the same candidates, does return. -/
theorem listAllU3Unix_abort_counterexample :
    listAllU3Unix [⟨1, true, 10⟩, ⟨2, false, 20⟩, ⟨3, true, 30⟩]
      = (.error (.labJackException "Error in listAllU3"), 2) ∧
    (listAllUE9Unix [⟨1, true, 10⟩, ⟨2, false, 20⟩, ⟨3, true, 30⟩]).1 = [10, 30] := by
  decide

theorem listAllUE9Unix_fst (cands : List USBCandidate) :
    (listAllUE9Unix cands).1 = (cands.filter (fun c => c.ioOk)).map (fun c => c.serial) := by
  induction cands with
  | nil => rfl
  | cons c rest ih =>
    by_cases hio : c.ioOk <;> simp [listAllUE9Unix, List.filter_cons, hio, ih]

theorem listAllUE9Unix_snd (cands : List USBCandidate) :
    (listAllUE9Unix cands).2 = cands.length := by
  induction cands with
  | nil => rfl
  | cons c rest ih =>
    by_cases hio : c.ioOk <;> simp [listAllUE9Unix, hio, ih]

theorem listAllU3Unix_all_ok (cands : List USBCandidate)
    (h : ∀ c ∈ cands, c.handle ≠ 0 → c.ioOk = true) :
    listAllU3Unix cands
      = (.ok ((cands.filter (fun c => c.handle != 0)).map (fun c => c.serial)),
         (cands.filter (fun c => c.handle != 0)).length) := by
  induction cands with
  | nil => rfl
  | cons c rest ih =>
    have hrest := ih (fun x hx => h x (List.mem_cons_of_mem c hx))
    by_cases hh : c.handle = 0
    · simp [listAllU3Unix, hh, hrest, List.filter_cons]
    · have hio : c.ioOk = true := h c (List.mem_cons_self c rest) hh
      simp [listAllU3Unix, hh, hio, hrest, List.filter_cons]

theorem listAllU3Unix_aborts (cands : List USBCandidate)
    (h : ∃ c ∈ cands, c.handle ≠ 0 ∧ c.ioOk = false) :
    ∃ n, listAllU3Unix cands = (.error (.labJackException "Error in listAllU3"), n) := by
  induction cands with
  | nil => simp at h
  | cons c rest ih =>
    by_cases hh : c.handle = 0
    · obtain ⟨x, hx, hxh, hxio⟩ := h
      rcases List.mem_cons.mp hx with hxc | hxr
      · exact absurd (hxc ▸ hh) hxh
      · obtain ⟨n, hn⟩ := ih ⟨x, hxr, hxh, hxio⟩
        exact ⟨n, by simp [listAllU3Unix, hh, hn]⟩
    · by_cases hio : c.ioOk
      · obtain ⟨x, hx, hxh, hxio⟩ := h
        rcases List.mem_cons.mp hx with hxc | hxr
        · simp [hxc, hio] at hxio
        · obtain ⟨n, hn⟩ := ih ⟨x, hxr, hxh, hxio⟩
          refine ⟨n + 1, ?_⟩
          simp [listAllU3Unix, hh, hio, hn]
      · exact ⟨1, by simp [listAllU3Unix, hh, hio]⟩

/-- C7 as amended: the UE9 USB enumeration tries every candidate
independently — it returns exactly the successfully identified devices and
issues a close for every opened candidate, failed or not — but the U3
enumeration only guarantees this when no openable candidate fails its
identification I/O: candidates whose open fails (handle 0) are skipped, and
the first openable candidate with failing I/O is closed and then aborts the
whole U3 enumeration with an error instead of a device list. -/
theorem discovery_enumeration_spec (cands : List USBCandidate) :
    (listAllUE9Unix cands).1 = (cands.filter (fun c => c.ioOk)).map (fun c => c.serial) ∧
    (listAllUE9Unix cands).2 = cands.length ∧
    ((∀ c ∈ cands, c.handle ≠ 0 → c.ioOk = true) →
      listAllU3Unix cands
        = (.ok ((cands.filter (fun c => c.handle != 0)).map (fun c => c.serial)),
           (cands.filter (fun c => c.handle != 0)).length)) ∧
    ((∃ c ∈ cands, c.handle ≠ 0 ∧ c.ioOk = false) →
      ∃ n, listAllU3Unix cands = (.error (.labJackException "Error in listAllU3"), n)) :=
  ⟨listAllUE9Unix_fst cands, listAllUE9Unix_snd cands,
    listAllU3Unix_all_ok cands, listAllU3Unix_aborts cands⟩

/-- Witness for C7 as amended: two candidates, the second failing to open —
the U3 enumeration returns the one identified device after one close. -/
theorem discovery_enumeration_spec_witness :
    listAllU3Unix [⟨1, true, 5⟩, ⟨0, false, 6⟩] = (.ok [5], 1) := by
  have h := (discovery_enumeration_spec [⟨1, true, 5⟩, ⟨0, false, 6⟩]).2.2.1 (by decide)
  rw [h]
  rfl

end LabJack
